import Mathlib

/-!
Shallow embedding of `stabilizer.py` (a Kalman-filter point stabilizer).

Matrices are lists of rows of rationals; column vectors are `n×1` matrices,
matching the numpy column vectors the source manipulates.  The
`cv2.KalmanFilter` core is not part of this repository's sources, so its
state and its `predict`/`correct` recursion are modelled from the spec
(§4.1 of spec.md) together with the documented OpenCV initialisation
(zero state, zero error covariance).  Everything in the `Stabilizer`
namespace is translated directly from `stabilizer.py`.
-/

abbrev Mat := List (List ℚ)

/-- Number of columns of a matrix, read off its first row (0 for an empty matrix). -/
def numCols (M : Mat) : ℕ := (M.head?.getD []).length

/-- Entry `i j` of a matrix, 0 when out of range. -/
def getEntry (M : Mat) (i j : ℕ) : ℚ := (((M.get? i).getD []).get? j).getD 0

/-- Matrix product: row `i`, column `j` of the result is the dot product of
row `i` of `A` with column `j` of `B`. -/
def matMul (A B : Mat) : Mat :=
  A.map fun row =>
    (List.range (numCols B)).map fun j =>
      (List.zipWith (fun a brow => a * ((brow.get? j).getD 0)) row B).sum

/-- Matrix transpose. -/
def mTranspose (M : Mat) : Mat :=
  (List.range (numCols M)).map fun j => M.map fun row => ((row.get? j).getD 0)

/-- Entrywise sum of two matrices. -/
def matAdd (A B : Mat) : Mat := List.zipWith (List.zipWith (· + ·)) A B

/-- Entrywise difference of two matrices. -/
def matSub (A B : Mat) : Mat := List.zipWith (List.zipWith (· - ·)) A B

/-- Scalar multiple of a matrix, written entry-first to match numpy's
`array * scalar`. -/
def matScale (c : ℚ) (M : Mat) : Mat := M.map (List.map (fun x => x * c))

/-- The `n×n` identity matrix. -/
def eye (n : ℕ) : Mat :=
  (List.range n).map fun i => (List.range n).map fun j => if i = j then (1 : ℚ) else 0

/-- The `r×c` zero matrix (`np.zeros((r, c))`). -/
def zerosMat (r c : ℕ) : Mat :=
  (List.range r).map fun _ => (List.range c).map fun _ => (0 : ℚ)

/-- Inverse of a `1×1` or `2×2` matrix; `none` when the matrix is singular
(or has any other shape).  The innovation covariance in this program is
always `1×1` or `2×2`. -/
def matInvSmall (M : Mat) : Option Mat :=
  match M with
  | [[a]] => if a = 0 then none else some [[1 / a]]
  | [[a, b], [c, d]] =>
      if a * d - b * c = 0 then none
      else some [[d / (a * d - b * c), -b / (a * d - b * c)],
                 [-c / (a * d - b * c), a / (a * d - b * c)]]
  | _ => none

/-- Modelled from the spec: the linear Kalman core (`cv2.KalmanFilter`) holds
the state vector, the error covariance and the four model matrices
(spec §2, §4.1).  Fields keep OpenCV's names, as the source accesses them. -/
structure KalmanFilter where
  transitionMatrix : Mat
  measurementMatrix : Mat
  processNoiseCov : Mat
  measurementNoiseCov : Mat
  statePre : Mat
  statePost : Mat
  errorCovPre : Mat
  errorCovPost : Mat
deriving DecidableEq

/-- Modelled from the spec: `cv2.KalmanFilter(dp, mp, 0)` initialises the
state vectors and the error covariances to zero (the spec notes the error
covariance is left to the library's default initialisation), the transition
and the two noise covariances to identities, and the measurement matrix to
zero. -/
def KalmanFilter.init (dp mp : ℕ) : KalmanFilter :=
  { transitionMatrix := eye dp
    measurementMatrix := zerosMat mp dp
    processNoiseCov := eye dp
    measurementNoiseCov := eye mp
    statePre := zerosMat dp 1
    statePost := zerosMat dp 1
    errorCovPre := zerosMat dp dp
    errorCovPost := zerosMat dp dp }

/-- Modelled from the spec (§4.1): `predict()` computes the a priori state
`x⁻ = F·x` and covariance `P⁻ = F·P·Fᵀ + Q`, replaces the stored state and
covariance with them, and returns the a priori state. -/
def KalmanFilter.predict (kf : KalmanFilter) : Mat × KalmanFilter :=
  let xPre := matMul kf.transitionMatrix kf.statePost
  let pPre := matAdd
    (matMul (matMul kf.transitionMatrix kf.errorCovPost) (mTranspose kf.transitionMatrix))
    kf.processNoiseCov
  (xPre, { kf with statePre := xPre, statePost := xPre,
                   errorCovPre := pPre, errorCovPost := pPre })

/-- The innovation covariance `S = H·P·Hᵀ + R` of the spec's `correct` step. -/
def innovationCov (kf : KalmanFilter) : Mat :=
  matAdd
    (matMul (matMul kf.measurementMatrix kf.errorCovPost) (mTranspose kf.measurementMatrix))
    kf.measurementNoiseCov

/-- The Kalman gain `K = P·Hᵀ·S⁻¹`, given the already-inverted innovation
covariance. -/
def kalmanGain (kf : KalmanFilter) (Sinv : Mat) : Mat :=
  matMul (matMul kf.errorCovPost (mTranspose kf.measurementMatrix)) Sinv

/-- Modelled from the spec (§4.1): `correct(z)` computes the innovation
`y = z − H·x`, the innovation covariance `S = H·P·Hᵀ + R`, the gain
`K = P·Hᵀ·S⁻¹`, then updates `x ← x + K·y` and `P ← (I − K·H)·P`.  Returns
`none` when `S` is singular (the spec's `SingularCovarianceError`). -/
def KalmanFilter.correct (kf : KalmanFilter) (z : Mat) : Option KalmanFilter :=
  match matInvSmall (innovationCov kf) with
  | none => none
  | some Sinv =>
      some { kf with
        statePost := matAdd kf.statePost
          (matMul (kalmanGain kf Sinv)
            (matSub z (matMul kf.measurementMatrix kf.statePost)))
        errorCovPost := matMul
          (matSub (eye kf.errorCovPost.length)
            (matMul (kalmanGain kf Sinv) kf.measurementMatrix))
          kf.errorCovPost }

/-- The point stabilizer of `stabilizer.py`: the wrapped filter plus the
`state`, `measurement` and `prediction` instance fields. -/
structure Stabilizer where
  state_num : ℕ
  measure_num : ℕ
  filter : KalmanFilter
  state : Mat
  measurement : Mat
  prediction : Mat
deriving DecidableEq

/-- The error raised by `Stabilizer.__init__`'s assertion (the spec's
`UnsupportedMode`). -/
inductive StabError where
  | UnsupportedMode
deriving DecidableEq

/-- Translation of `Stabilizer.__init__` (stabilizer.py lines 15–67): assert
`state_num ∈ {4, 2}`, build the `cv2.KalmanFilter`, zero the `state` and
`prediction` fields (`self.measurement = np.array((measure_num, 1))` builds
the 1-D array `[measure_num, 1]`, modelled as a single row), then overwrite
F, H, Q, R when `measure_num` is 1 (scalar) and when it is 2 (point). -/
def Stabilizer.init (state_num measure_num : ℕ) (cov_process cov_measure : ℚ) :
    Except StabError Stabilizer :=
  if state_num = 4 ∨ state_num = 2 then
    let f0 := KalmanFilter.init state_num measure_num
    let f1 :=
      if measure_num = 1 then
        { f0 with
            transitionMatrix := [[1, 1], [0, 1]]
            measurementMatrix := [[1, 1]]
            processNoiseCov := matScale cov_process [[1, 0], [0, 1]]
            measurementNoiseCov := matScale cov_measure [[1]] }
      else f0
    let f2 :=
      if measure_num = 2 then
        { f1 with
            transitionMatrix := [[1, 0, 1, 0], [0, 1, 0, 1], [0, 0, 1, 0], [0, 0, 0, 1]]
            measurementMatrix := [[1, 0, 0, 0], [0, 1, 0, 0]]
            processNoiseCov :=
              matScale cov_process [[1, 0, 0, 0], [0, 1, 0, 0], [0, 0, 1, 0], [0, 0, 0, 1]]
            measurementNoiseCov := matScale cov_measure [[1, 0], [0, 1]] }
      else f1
    Except.ok
      { state_num := state_num
        measure_num := measure_num
        filter := f2
        state := zerosMat state_num 1
        measurement := [[(measure_num : ℚ), 1]]
        prediction := zerosMat state_num 1 }
  else Except.error StabError.UnsupportedMode

/-- Packing of the raw measurement into the `m×1` column of
`Stabilizer.update` (lines 75–79): scalar mode reads `measurement[0]`,
point mode reads `measurement[0]` and `measurement[1]`; a missing index is
Python's `IndexError`, modelled as `none`. -/
def packMeasurement (measure_num : ℕ) (z : List ℚ) : Option Mat :=
  if measure_num = 1 then
    (z.get? 0).map fun a => [[a]]
  else
    match z.get? 0, z.get? 1 with
    | some a, some b => some [[a], [b]]
    | _, _ => none

/-- Translation of `Stabilizer.update` (lines 69–85): predict and store the
result in `prediction`, pack the measurement, correct with it, and store the
filter's `statePost` in `state`.  `none` models an uncaught exception (in the
source, `predict` has already run when the packing raises `IndexError`; the
result of a failed call is not observed through a `some`, so the partially
mutated object is not modelled). -/
def Stabilizer.update (s : Stabilizer) (z : List ℚ) : Option Stabilizer :=
  match packMeasurement s.measure_num z with
  | none => none
  | some m =>
      match (s.filter.predict).2.correct m with
      | none => none
      | some f2 =>
          some { s with prediction := (s.filter.predict).1, measurement := m,
                        filter := f2, state := f2.statePost }

/-- Translation of `Stabilizer.set_q_r` (lines 87–99): replace the process
and measurement noise covariances with scaled identities, sized by
`measure_num`. -/
def Stabilizer.set_q_r (s : Stabilizer) (cov_process cov_measure : ℚ) : Stabilizer :=
  if s.measure_num = 1 then
    { s with filter :=
        { s.filter with
            processNoiseCov := matScale cov_process [[1, 0], [0, 1]]
            measurementNoiseCov := matScale cov_measure [[1]] } }
  else
    { s with filter :=
        { s.filter with
            processNoiseCov :=
              matScale cov_process [[1, 0, 0, 0], [0, 1, 0, 0], [0, 0, 1, 0], [0, 0, 0, 1]]
            measurementNoiseCov := matScale cov_measure [[1, 0], [0, 1]] } }

/-- One externally visible operation on a stabilizer: an `update` with a raw
measurement, or a retune (`set_q_r`) with two noise scalars. -/
inductive StabOp where
  | upd (z : List ℚ)
  | tune (cp cm : ℚ)

/-- Run a sequence of operations; `none` as soon as an `update` fails. -/
def runOps : Stabilizer → List StabOp → Option Stabilizer
  | s, [] => some s
  | s, StabOp.upd z :: rest =>
      match s.update z with
      | none => none
      | some s2 => runOps s2 rest
  | s, StabOp.tune cp cm :: rest => runOps (s.set_q_r cp cm) rest

/-- Every diagonal entry of the matrix is strictly positive. -/
def posDiag (M : Mat) : Prop := ∀ i, i < M.length → 0 < getEntry M i i

instance (M : Mat) : Decidable (posDiag M) := by
  unfold posDiag; infer_instance

/-- Every `tune` in the list uses strictly positive scalars. -/
def positiveOps : List StabOp → Prop
  | [] => True
  | StabOp.upd _ :: r => positiveOps r
  | StabOp.tune cp cm :: r => (0 < cp ∧ 0 < cm) ∧ positiveOps r

/-- The stabilizer is in one of the two supported configurations and its
transition and process-noise matrices have `state_num` rows. -/
def WF (s : Stabilizer) : Prop :=
  ((s.measure_num = 1 ∧ s.state_num = 2) ∨ (s.measure_num = 2 ∧ s.state_num = 4)) ∧
  s.filter.transitionMatrix.length = s.state_num ∧
  s.filter.processNoiseCov.length = s.state_num

/-- Constructor result shorthand: `true` exactly when construction succeeded. -/
def initOk (e : Except StabError Stabilizer) : Bool :=
  match e with
  | Except.ok _ => true
  | Except.error _ => false

/-- Placeholder stabilizer used only as the default of `Option.getD`. -/
def demoDummy : Stabilizer :=
  { state_num := 0, measure_num := 0
    filter := ⟨[], [], [], [], [], [], [], []⟩
    state := [], measurement := [], prediction := [] }

/-- The value of `Stabilizer.init 2 1 1 1` (scalar mode, unit covariances). -/
def demoScalar : Stabilizer :=
  { state_num := 2, measure_num := 1
    filter :=
      { transitionMatrix := [[1, 1], [0, 1]]
        measurementMatrix := [[1, 1]]
        processNoiseCov := [[1, 0], [0, 1]]
        measurementNoiseCov := [[1]]
        statePre := [[0], [0]]
        statePost := [[0], [0]]
        errorCovPre := [[0, 0], [0, 0]]
        errorCovPost := [[0, 0], [0, 0]] }
    state := [[0], [0]], measurement := [[1, 1]], prediction := [[0], [0]] }

/-- The value of `Stabilizer.init 4 2 (1/10000) (1/10)` (point mode with the
source's default covariances). -/
def demoPoint : Stabilizer :=
  { state_num := 4, measure_num := 2
    filter :=
      { transitionMatrix := [[1, 0, 1, 0], [0, 1, 0, 1], [0, 0, 1, 0], [0, 0, 0, 1]]
        measurementMatrix := [[1, 0, 0, 0], [0, 1, 0, 0]]
        processNoiseCov :=
          [[1/10000, 0, 0, 0], [0, 1/10000, 0, 0], [0, 0, 1/10000, 0], [0, 0, 0, 1/10000]]
        measurementNoiseCov := [[1/10, 0], [0, 1/10]]
        statePre := [[0], [0], [0], [0]]
        statePost := [[0], [0], [0], [0]]
        errorCovPre := [[0, 0, 0, 0], [0, 0, 0, 0], [0, 0, 0, 0], [0, 0, 0, 0]]
        errorCovPost := [[0, 0, 0, 0], [0, 0, 0, 0], [0, 0, 0, 0], [0, 0, 0, 0]] }
    state := [[0], [0], [0], [0]], measurement := [[2, 1]]
    prediction := [[0], [0], [0], [0]] }

/-- The value of `demoPoint.update [10, 20]`. -/
def demoPointUpd : Stabilizer :=
  { state_num := 4, measure_num := 2
    filter :=
      { transitionMatrix := [[1, 0, 1, 0], [0, 1, 0, 1], [0, 0, 1, 0], [0, 0, 0, 1]]
        measurementMatrix := [[1, 0, 0, 0], [0, 1, 0, 0]]
        processNoiseCov :=
          [[1/10000, 0, 0, 0], [0, 1/10000, 0, 0], [0, 0, 1/10000, 0], [0, 0, 0, 1/10000]]
        measurementNoiseCov := [[1/10, 0], [0, 1/10]]
        statePre := [[0], [0], [0], [0]]
        statePost := [[10/1001], [20/1001], [0], [0]]
        errorCovPre :=
          [[1/10000, 0, 0, 0], [0, 1/10000, 0, 0], [0, 0, 1/10000, 0], [0, 0, 0, 1/10000]]
        errorCovPost :=
          [[1/10010, 0, 0, 0], [0, 1/10010, 0, 0], [0, 0, 1/10000, 0], [0, 0, 0, 1/10000]] }
    state := [[10/1001], [20/1001], [0], [0]], measurement := [[10], [20]]
    prediction := [[0], [0], [0], [0]] }

/-- C1: the claim says the Scalar-mode measurement matrix is `[[1, 0]]`, but the
source (stabilizer.py line 43) sets it to `[[1, 1]]`, which is not `[[1, 0]]`. -/
theorem C1_scalar_H_counterexample :
    ((Stabilizer.init 2 1 (1/10000) (1/10)).toOption.map
        fun s => s.filter.measurementMatrix) = some [[1, 1]] ∧
    ([[(1 : ℚ), 1]] : Mat) ≠ [[1, 0]] := by
  constructor
  · norm_num [Stabilizer.init, KalmanFilter.init, matScale, eye, zerosMat, List.range_succ, Except.toOption]
  · norm_num

/-- C1 (amended): in Scalar mode the measurement matrix H is `[[1, 1]]` — it sums
position and velocity instead of selecting the position — while in Point2D mode
H is `[[1,0,0,0],[0,1,0,0]]` and applying it to a state returns the first two
(position) entries; in Scalar mode applying H returns position + velocity. -/
theorem C1_measurement_matrix (cp cm a b c d : ℚ) :
    ((Stabilizer.init 2 1 cp cm).toOption.map fun s => s.filter.measurementMatrix)
        = some [[1, 1]] ∧
    ((Stabilizer.init 4 2 cp cm).toOption.map fun s => s.filter.measurementMatrix)
        = some [[1, 0, 0, 0], [0, 1, 0, 0]] ∧
    matMul [[1, 0, 0, 0], [0, 1, 0, 0]] [[a], [b], [c], [d]] = [[a], [b]] ∧
    matMul [[1, 1]] [[a], [b]] = [[a + b]] := by
  refine ⟨?_, ?_, ?_, ?_⟩ <;>
    norm_num [Stabilizer.init, KalmanFilter.init, matMul, numCols, matScale, eye,
      zerosMat, List.range_succ, Except.toOption]

/-- C2: the claim says `(state_num, measure_num) = (4, 1)` is rejected at
construction, but the source's assertion checks only `state_num`, so
construction succeeds for the pair `(4, 1)`, which is outside
`{(2, 1), (4, 2)}`. -/
theorem C2_assert_counterexample :
    initOk (Stabilizer.init 4 1 (1/10000) (1/10)) = true ∧
    ¬(((4 : ℕ), (1 : ℕ)) = (2, 1) ∨ ((4 : ℕ), (1 : ℕ)) = (4, 2)) := by
  constructor
  · norm_num [Stabilizer.init, initOk]
  · norm_num

/-- C2 (amended): construction raises `UnsupportedMode` (the source's
assertion) if and only if `state_num ∉ {4, 2}`; `measure_num` is never
checked, so mismatched pairs such as `(4, 1)` or `(2, 2)` are accepted. -/
theorem C2_assert_only_state_num (sn mn : ℕ) (cp cm : ℚ) :
    Stabilizer.init sn mn cp cm = Except.error StabError.UnsupportedMode ↔
      ¬(sn = 4 ∨ sn = 2) := by
  unfold Stabilizer.init
  split
  next h => simp [h]
  next h => simp [h]

/-- C3: the claim says construction with `state_num = 2, measure_num = 2`
fails with `ConfigurationError`; in the source it completes successfully,
leaving a 4×4 transition matrix attached to a 2-state filter. -/
theorem C3_no_dimension_check_counterexample :
    initOk (Stabilizer.init 2 2 (1/10000) (1/10)) = true ∧
    ((Stabilizer.init 2 2 (1/10000) (1/10)).toOption.map
        fun s => (s.state_num, s.filter.transitionMatrix.length)) = some (2, 4) := by
  constructor <;>
    norm_num [Stabilizer.init, initOk, KalmanFilter.init, matScale, eye, zerosMat,
      List.range_succ, Except.toOption]

/-- C3 (amended): construction performs no dimension-consistency check at all
— there is no `ConfigurationError` in the code.  With `state_num = 2` and
`measure_num = 2` it completes successfully and assigns 4×4 transition and
process-noise matrices to the declared 2-state filter. -/
theorem C3_inconsistent_construction_succeeds (cp cm : ℚ) :
    ∃ s, Stabilizer.init 2 2 cp cm = Except.ok s ∧
      s.state_num = 2 ∧ s.filter.transitionMatrix.length = 4 ∧
      s.filter.processNoiseCov.length = 4 := by
  refine ⟨_, rfl, rfl, rfl, ?_⟩
  norm_num [matScale]

/-- C4: whenever `update` completes, it has (a) run `predict` and stored the a
priori state `F·x` in the `prediction` field, (b) packed the raw measurement
into the `m×1` measurement vector, and (c) run `correct` with that vector on
the predicted filter and stored the resulting a posteriori state in the
`state` field, so `prediction` reflects the state before the measurement was
fused and `state` the state after. -/
theorem C4_update_sequence (s s' : Stabilizer) (z : List ℚ)
    (h : s.update z = some s') :
    s'.prediction = matMul s.filter.transitionMatrix s.filter.statePost ∧
    s'.prediction = (s.filter.predict).1 ∧
    (∃ m, packMeasurement s.measure_num z = some m ∧ s'.measurement = m ∧
        (s.filter.predict).2.correct m = some s'.filter) ∧
    s'.state = s'.filter.statePost := by
  unfold Stabilizer.update at h
  split at h
  · exact absurd h (by simp)
  next m hm =>
    split at h
    · exact absurd h (by simp)
    next f2 hc =>
      injection h with h
      subst h
      refine ⟨?_, rfl, ⟨m, hm, rfl, hc⟩, rfl⟩
      simp [KalmanFilter.predict]

/-- C4 witness: the point-mode stabilizer updated with measurement `[10, 20]`. -/
theorem C4_update_sequence_witness :
    demoPointUpd.prediction
        = matMul demoPoint.filter.transitionMatrix demoPoint.filter.statePost ∧
    demoPointUpd.prediction = (demoPoint.filter.predict).1 ∧
    (∃ m, packMeasurement demoPoint.measure_num [10, 20] = some m ∧
        demoPointUpd.measurement = m ∧
        (demoPoint.filter.predict).2.correct m = some demoPointUpd.filter) ∧
    demoPointUpd.state = demoPointUpd.filter.statePost :=
  C4_update_sequence demoPoint demoPointUpd [10, 20] (by
    norm_num [demoPoint, demoPointUpd, Stabilizer.update, packMeasurement,
      KalmanFilter.predict, KalmanFilter.correct, innovationCov, kalmanGain,
      matInvSmall, matMul, matAdd, matSub, mTranspose, matScale, numCols, eye,
      zerosMat, List.range_succ])

/-- C5: `set_q_r` replaces the process-noise covariance with
`cov_process·I_n` and the measurement-noise covariance with `cov_measure·I_m`
and leaves every other component — F, H, the state vectors, the error
covariances, and the exposed `state`/`prediction` fields — unchanged. -/
theorem C5_set_q_r_replaces_only_noise (s : Stabilizer) (cp cm : ℚ)
    (hmode : (s.measure_num = 1 ∧ s.state_num = 2) ∨
             (s.measure_num = 2 ∧ s.state_num = 4)) :
    (s.set_q_r cp cm).filter.processNoiseCov = matScale cp (eye s.state_num) ∧
    (s.set_q_r cp cm).filter.measurementNoiseCov = matScale cm (eye s.measure_num) ∧
    (s.set_q_r cp cm).filter.transitionMatrix = s.filter.transitionMatrix ∧
    (s.set_q_r cp cm).filter.measurementMatrix = s.filter.measurementMatrix ∧
    (s.set_q_r cp cm).filter.statePre = s.filter.statePre ∧
    (s.set_q_r cp cm).filter.statePost = s.filter.statePost ∧
    (s.set_q_r cp cm).filter.errorCovPre = s.filter.errorCovPre ∧
    (s.set_q_r cp cm).filter.errorCovPost = s.filter.errorCovPost ∧
    (s.set_q_r cp cm).state = s.state ∧
    (s.set_q_r cp cm).prediction = s.prediction := by
  rcases hmode with ⟨hm, hn⟩ | ⟨hm, hn⟩ <;>
    simp [Stabilizer.set_q_r, hm, hn, eye, List.range_succ, matScale]

/-- C5 witness: retuning the scalar-mode stabilizer with `(1/2, 1/3)`. -/
theorem C5_set_q_r_replaces_only_noise_witness :
    (demoScalar.set_q_r (1/2) (1/3)).filter.processNoiseCov
        = matScale (1/2) (eye demoScalar.state_num) ∧
    (demoScalar.set_q_r (1/2) (1/3)).filter.measurementNoiseCov
        = matScale (1/3) (eye demoScalar.measure_num) ∧
    (demoScalar.set_q_r (1/2) (1/3)).filter.transitionMatrix
        = demoScalar.filter.transitionMatrix ∧
    (demoScalar.set_q_r (1/2) (1/3)).filter.measurementMatrix
        = demoScalar.filter.measurementMatrix ∧
    (demoScalar.set_q_r (1/2) (1/3)).filter.statePre = demoScalar.filter.statePre ∧
    (demoScalar.set_q_r (1/2) (1/3)).filter.statePost = demoScalar.filter.statePost ∧
    (demoScalar.set_q_r (1/2) (1/3)).filter.errorCovPre = demoScalar.filter.errorCovPre ∧
    (demoScalar.set_q_r (1/2) (1/3)).filter.errorCovPost = demoScalar.filter.errorCovPost ∧
    (demoScalar.set_q_r (1/2) (1/3)).state = demoScalar.state ∧
    (demoScalar.set_q_r (1/2) (1/3)).prediction = demoScalar.prediction :=
  C5_set_q_r_replaces_only_noise demoScalar (1/2) (1/3) (Or.inl ⟨rfl, rfl⟩)

/-- C7: in both supported modes, and for any noise scalars, `predict()` called
immediately after construction returns the zero column vector of length
`state_num`: the constant-velocity transition applied to the zero initial
state yields zero. -/
theorem C7_predict_zero_after_init (cp cm : ℚ) :
    ((Stabilizer.init 2 1 cp cm).toOption.map fun s => (s.filter.predict).1)
        = some (zerosMat 2 1) ∧
    ((Stabilizer.init 4 2 cp cm).toOption.map fun s => (s.filter.predict).1)
        = some (zerosMat 4 1) := by
  constructor <;>
    norm_num [Stabilizer.init, KalmanFilter.init, KalmanFilter.predict, matMul,
      numCols, matScale, eye, zerosMat, List.range_succ, Except.toOption]

/-- C10: in Scalar mode `update` reads only component 0 of its measurement
argument, so two measurements agreeing there produce identical results —
prediction, state and the whole filter contents. -/
theorem C10_scalar_reads_only_first (s : Stabilizer) (z1 z2 : List ℚ)
    (hm : s.measure_num = 1) (h0 : z1.get? 0 = z2.get? 0) :
    s.update z1 = s.update z2 := by
  have h0' : z1[0]? = z2[0]? := by simpa using h0
  simp [Stabilizer.update, packMeasurement, hm, h0']

/-- C10 witness: measurements `[5, 99]` and `[5, -3]` agree on component 0 and
give the same update result on the scalar-mode stabilizer. -/
theorem C10_scalar_reads_only_first_witness :
    demoScalar.update [5, 99] = demoScalar.update [5, -3] :=
  C10_scalar_reads_only_first demoScalar [5, 99] [5, -3] rfl rfl

lemma matMul_length (A B : Mat) : (matMul A B).length = A.length := by
  simp [matMul]

lemma matAdd_length (A B : Mat) : (matAdd A B).length = min A.length B.length := by
  simp [matAdd]

lemma matSub_length (A B : Mat) : (matSub A B).length = min A.length B.length := by
  simp [matSub]

lemma eye_length (n : ℕ) : (eye n).length = n := by
  simp [eye]

lemma correct_fields (kf kf2 : KalmanFilter) (z : Mat)
    (h : kf.correct z = some kf2) :
    kf2.transitionMatrix = kf.transitionMatrix ∧
    kf2.measurementMatrix = kf.measurementMatrix ∧
    kf2.processNoiseCov = kf.processNoiseCov ∧
    kf2.measurementNoiseCov = kf.measurementNoiseCov ∧
    kf2.statePost.length = min kf.statePost.length kf.errorCovPost.length ∧
    kf2.errorCovPost.length = kf.errorCovPost.length := by
  unfold KalmanFilter.correct at h
  split at h
  · exact absurd h (by simp)
  next Sinv hinv =>
    injection h with h
    subst h
    refine ⟨rfl, rfl, rfl, rfl, ?_, ?_⟩
    · simp [matAdd_length, matMul_length, kalmanGain]
    · simp [matMul_length, matSub_length, matAdd_length, eye_length, kalmanGain]

lemma update_preserves_noise (s s2 : Stabilizer) (z : List ℚ)
    (h : s.update z = some s2) :
    s2.filter.processNoiseCov = s.filter.processNoiseCov ∧
    s2.filter.measurementNoiseCov = s.filter.measurementNoiseCov ∧
    s2.measure_num = s.measure_num ∧ s2.state_num = s.state_num ∧
    s2.filter.transitionMatrix = s.filter.transitionMatrix ∧
    s2.filter.measurementMatrix = s.filter.measurementMatrix := by
  unfold Stabilizer.update at h
  split at h
  · exact absurd h (by simp)
  next m hm =>
    split at h
    · exact absurd h (by simp)
    next f2 hc =>
      injection h with h
      subst h
      obtain ⟨hF, hH, hQ, hR, _, _⟩ := correct_fields _ _ _ hc
      refine ⟨?_, ?_, rfl, rfl, ?_, ?_⟩ <;>
        simp [hQ, hR, hF, hH, KalmanFilter.predict]

lemma posDiag_scale1 (c : ℚ) (hc : 0 < c) : posDiag (matScale c [[1]]) := by
  intro i hi
  simp only [matScale, List.map_cons, List.map_nil, List.length_cons,
    List.length_nil] at hi
  interval_cases i
  simpa [getEntry, matScale] using hc

lemma posDiag_scale2 (c : ℚ) (hc : 0 < c) : posDiag (matScale c [[1, 0], [0, 1]]) := by
  intro i hi
  simp only [matScale, List.map_cons, List.map_nil, List.length_cons,
    List.length_nil] at hi
  interval_cases i <;> simpa [getEntry, matScale] using hc

lemma posDiag_scale4 (c : ℚ) (hc : 0 < c) :
    posDiag (matScale c [[1, 0, 0, 0], [0, 1, 0, 0], [0, 0, 1, 0], [0, 0, 0, 1]]) := by
  intro i hi
  simp only [matScale, List.map_cons, List.map_nil, List.length_cons,
    List.length_nil] at hi
  interval_cases i <;> simpa [getEntry, matScale] using hc

lemma set_q_r_posDiag (s : Stabilizer) (cp cm : ℚ) (hcp : 0 < cp) (hcm : 0 < cm) :
    posDiag (s.set_q_r cp cm).filter.processNoiseCov ∧
    posDiag (s.set_q_r cp cm).filter.measurementNoiseCov := by
  unfold Stabilizer.set_q_r
  split
  · exact ⟨posDiag_scale2 cp hcp, posDiag_scale1 cm hcm⟩
  · exact ⟨posDiag_scale4 cp hcp, posDiag_scale2 cm hcm⟩

lemma runOps_posDiag (ops : List StabOp) :
    ∀ s s2 : Stabilizer, posDiag s.filter.processNoiseCov →
      posDiag s.filter.measurementNoiseCov → positiveOps ops →
      runOps s ops = some s2 →
      posDiag s2.filter.processNoiseCov ∧ posDiag s2.filter.measurementNoiseCov := by
  induction ops with
  | nil =>
      intro s s2 hq hr _ h
      injection h with h
      subst h
      exact ⟨hq, hr⟩
  | cons op rest ih =>
      intro s s2 hq hr hpos h
      cases op with
      | upd z =>
          unfold runOps at h
          split at h
          · exact absurd h (by simp)
          next s3 hs3 =>
              obtain ⟨hQ, hR, _⟩ := update_preserves_noise s s3 z hs3
              exact ih s3 s2 (by rw [hQ]; exact hq) (by rw [hR]; exact hr) hpos h
      | tune cp cm =>
          unfold runOps at h
          obtain ⟨⟨hcp, hcm⟩, hrest⟩ := hpos
          obtain ⟨hq2, hr2⟩ := set_q_r_posDiag s cp cm hcp hcm
          exact ih _ s2 hq2 hr2 hrest h

/-- C6: the claim says Q and R are positive-diagonal in every state reachable
by update and retune with any scalar arguments; but `set_q_r 0 0` is such a
reachable state and zeroes both covariances — their diagonal entries are 0. -/
theorem C6_zero_scale_counterexample :
    runOps demoPoint [StabOp.tune 0 0] = some (demoPoint.set_q_r 0 0) ∧
    ¬ posDiag (demoPoint.set_q_r 0 0).filter.processNoiseCov ∧
    ¬ posDiag (demoPoint.set_q_r 0 0).filter.measurementNoiseCov := by
  refine ⟨rfl, ?_, ?_⟩
  · intro h
    have h0 := h 0 (by norm_num [demoPoint, Stabilizer.set_q_r, matScale])
    norm_num [demoPoint, Stabilizer.set_q_r, matScale, getEntry] at h0
  · intro h
    have h0 := h 0 (by norm_num [demoPoint, Stabilizer.set_q_r, matScale])
    norm_num [demoPoint, Stabilizer.set_q_r, matScale, getEntry] at h0

/-- C6 (amended): in every state reachable from a construction with positive
noise scalars by updates and retunes whose scalars are all positive, Q and R
are positive-diagonal.  (The code itself never rejects a zero or negative
scale; positivity holds only as long as the caller supplies positive
scalars.) -/
theorem C6_positive_noise_invariant (sn mn : ℕ) (cp0 cm0 : ℚ)
    (s0 s1 : Stabilizer) (ops : List StabOp)
    (hmode : (sn = 2 ∧ mn = 1) ∨ (sn = 4 ∧ mn = 2))
    (hcp : 0 < cp0) (hcm : 0 < cm0)
    (hinit : Stabilizer.init sn mn cp0 cm0 = Except.ok s0)
    (hpos : positiveOps ops)
    (hrun : runOps s0 ops = some s1) :
    posDiag s1.filter.processNoiseCov ∧ posDiag s1.filter.measurementNoiseCov := by
  have base : posDiag s0.filter.processNoiseCov ∧
      posDiag s0.filter.measurementNoiseCov := by
    rcases hmode with ⟨rfl, rfl⟩ | ⟨rfl, rfl⟩ <;>
    · rw [Stabilizer.init] at hinit
      norm_num at hinit
      rw [← hinit]
      first
      | exact ⟨posDiag_scale2 cp0 hcp, posDiag_scale1 cm0 hcm⟩
      | exact ⟨posDiag_scale4 cp0 hcp, posDiag_scale2 cm0 hcm⟩
  exact runOps_posDiag ops s0 s1 base.1 base.2 hpos hrun

/-- C6 witness: scalar-mode construction with unit scalars followed by one
positive retune keeps Q and R positive-diagonal. -/
theorem C6_positive_noise_invariant_witness :
    posDiag (demoScalar.set_q_r (1/2) (1/3)).filter.processNoiseCov ∧
    posDiag (demoScalar.set_q_r (1/2) (1/3)).filter.measurementNoiseCov :=
  C6_positive_noise_invariant 2 1 1 1 demoScalar (demoScalar.set_q_r (1/2) (1/3))
    [StabOp.tune (1/2) (1/3)] (Or.inl ⟨rfl, rfl⟩) (by norm_num) (by norm_num)
    (by norm_num [Stabilizer.init, KalmanFilter.init, matScale, eye, zerosMat,
      List.range_succ, demoScalar])
    ⟨⟨by norm_num, by norm_num⟩, trivial⟩ rfl

/-- C8: the claim says a Scalar-mode measurement with other than one component
is rejected; but the code reads only `measurement[0]`, so the two-component
measurement `[5, 99]` is accepted — `update` completes on it. -/
theorem C8_arity_counterexample :
    demoScalar.measure_num = 1 ∧ ([5, 99] : List ℚ).length ≠ 1 ∧
    (demoScalar.update [5, 99]).isSome = true := by
  refine ⟨rfl, by norm_num, ?_⟩
  norm_num [demoScalar, Stabilizer.update, packMeasurement, KalmanFilter.predict,
    KalmanFilter.correct, innovationCov, kalmanGain, matInvSmall, matMul, matAdd,
    matSub, mTranspose, matScale, numCols, eye, zerosMat, List.range_succ]

/-- C8 (amended): in a well-formed stabilizer every vector exposed by a
completed `update` (`prediction` and `state`) has length `state_num` (2 in
Scalar mode, 4 in Point2D mode) and well-formedness is preserved; `update`
fails only on measurements with fewer than `measure_num` components (the
missing index raises), while measurements with extra components are accepted
and the extras ignored. -/
theorem C8_lengths_and_arity (s s' : Stabilizer) (z : List ℚ) (hwf : WF s) :
    (s.update z = some s' →
        s'.prediction.length = s.state_num ∧ s'.state.length = s.state_num ∧ WF s') ∧
    (z.length < s.measure_num → s.update z = none) := by
  obtain ⟨hmode, hF, hQ⟩ := hwf
  constructor
  · intro h
    unfold Stabilizer.update at h
    split at h
    · exact absurd h (by simp)
    next m hm =>
      split at h
      · exact absurd h (by simp)
      next f2 hc =>
        injection h with h
        subst h
        obtain ⟨hF2, hH2, hQ2, hR2, hx2, hP2⟩ := correct_fields _ _ _ hc
        refine ⟨?_, ?_, hmode, ?_, ?_⟩
        · simp [KalmanFilter.predict, matMul_length, hF]
        · simp only [KalmanFilter.predict] at hx2
          simp [hx2, matMul_length, matAdd_length, hF, hQ]
        · simp only [KalmanFilter.predict] at hF2
          simp [hF2, hF]
        · simp only [KalmanFilter.predict] at hQ2
          simp [hQ2, hQ]
  · intro hlen
    unfold Stabilizer.update
    rcases hmode with ⟨hm, _⟩ | ⟨hm, _⟩
    · rw [hm] at hlen
      have h0 : z[0]? = none := by
        simpa using List.get?_eq_none.mpr (show z.length ≤ 0 by omega)
      simp [packMeasurement, hm, h0]
    · rw [hm] at hlen
      have h1 : z[1]? = none := by
        simpa using List.get?_eq_none.mpr (show z.length ≤ 1 by omega)
      cases h0 : z[0]? <;>
        simp [packMeasurement, hm, h0, h1]

/-- C8 witness: the point-mode update with `[10, 20]` returns vectors of
length 4, and the empty measurement is rejected. -/
theorem C8_lengths_and_arity_witness :
    (demoPointUpd.prediction.length = demoPoint.state_num ∧
     demoPointUpd.state.length = demoPoint.state_num ∧ WF demoPointUpd) ∧
    demoPoint.update [] = none :=
  ⟨(C8_lengths_and_arity demoPoint demoPointUpd [10, 20]
      ⟨Or.inr ⟨rfl, rfl⟩, rfl, rfl⟩).1
      (by norm_num [demoPoint, demoPointUpd, Stabilizer.update, packMeasurement,
        KalmanFilter.predict, KalmanFilter.correct, innovationCov, kalmanGain,
        matInvSmall, matMul, matAdd, matSub, mTranspose, matScale, numCols, eye,
        zerosMat, List.range_succ]),
   (C8_lengths_and_arity demoPoint demoPointUpd []
      ⟨Or.inr ⟨rfl, rfl⟩, rfl, rfl⟩).2 (by norm_num [demoPoint])⟩

/-- C9: retuning with scalars that reproduce the current Q and R is a no-op on
the whole stabilizer, so any subsequent sequence of updates and retunes gives
exactly the same outputs as without the retune. -/
theorem C9_retune_current_noop (s : Stabilizer) (cp cm : ℚ) (ops : List StabOp)
    (hmode : (s.measure_num = 1 ∧ s.state_num = 2) ∨
             (s.measure_num = 2 ∧ s.state_num = 4))
    (hQ : s.filter.processNoiseCov = matScale cp (eye s.state_num))
    (hR : s.filter.measurementNoiseCov = matScale cm (eye s.measure_num)) :
    runOps (s.set_q_r cp cm) ops = runOps s ops := by
  have hs : s.set_q_r cp cm = s := by
    rcases hmode with ⟨hm, hn⟩ | ⟨hm, hn⟩ <;>
    · rw [hn] at hQ
      rw [hm] at hR
      cases s with
      | mk sn mn f st me pr =>
          cases f
          simp_all [Stabilizer.set_q_r, eye, List.range_succ, matScale]
  rw [hs]

/-- C9 witness: retuning the scalar-mode stabilizer with its current unit
scalars, then updating and retuning, equals the same run without the retune. -/
theorem C9_retune_current_noop_witness :
    runOps (demoScalar.set_q_r 1 1) [StabOp.upd [7], StabOp.tune 5 6]
      = runOps demoScalar [StabOp.upd [7], StabOp.tune 5 6] :=
  C9_retune_current_noop demoScalar 1 1 [StabOp.upd [7], StabOp.tune 5 6]
    (Or.inl ⟨rfl, rfl⟩)
    (by norm_num [demoScalar, matScale, eye, List.range_succ])
    (by norm_num [demoScalar, matScale, eye, List.range_succ])
